import Mathlib

/-
Verification of the Git status-resolution subsystem of the `exa`
directory-listing tool (`src/fs/feature/git.rs`).

Modelling choices:
* A filesystem path is its list of components (`List String`); Rust's
  `Path::starts_with` is component-wise, which is `List.isPrefixOf` here.
* A `git2::Status` raw flag set is a natural-number bitmask with the bit
  values of the `git2` crate; `contains` and union follow the `bitflags`
  semantics (`s & f == f`, `|`).
* Fallible provider calls are `Except Unit`; `scan` itself returns inside
  `Except Unit` so that a Rust panic (`unwrap` on `None`) is an `error`
  value while the normal return is `ok`.
-/

namespace Exa

/-- A filesystem path, as its sequence of components. -/
abbrev PathT := List String

/-- A `git2::Status` raw flag set, as a bitmask. -/
abbrev Status := Nat

/-- `git2::STATUS_INDEX_NEW` (bit 0). -/
def STATUS_INDEX_NEW : Status := 1

/-- `git2::STATUS_INDEX_MODIFIED` (bit 1). -/
def STATUS_INDEX_MODIFIED : Status := 2

/-- `git2::STATUS_INDEX_DELETED` (bit 2). -/
def STATUS_INDEX_DELETED : Status := 4

/-- `git2::STATUS_INDEX_RENAMED` (bit 3). -/
def STATUS_INDEX_RENAMED : Status := 8

/-- `git2::STATUS_INDEX_TYPECHANGE` (bit 4). -/
def STATUS_INDEX_TYPECHANGE : Status := 16

/-- `git2::STATUS_WT_NEW` (bit 7). -/
def STATUS_WT_NEW : Status := 128

/-- `git2::STATUS_WT_MODIFIED` (bit 8). -/
def STATUS_WT_MODIFIED : Status := 256

/-- `git2::STATUS_WT_DELETED` (bit 9). -/
def STATUS_WT_DELETED : Status := 512

/-- `git2::STATUS_WT_TYPECHANGE` (bit 10). -/
def STATUS_WT_TYPECHANGE : Status := 1024

/-- `git2::STATUS_WT_RENAMED` (bit 11). -/
def STATUS_WT_RENAMED : Status := 2048

/-- `git2::Status::empty()`. -/
def Status.empty : Status := 0

/-- `bitflags` membership test: `s.contains(f)` is `s & f == f`. -/
def Status.contains (s f : Status) : Bool := s &&& f == f

/-- Modelled from the spec: the Change Kind taxonomy (`f::GitStatus` lives in
`src/fs/fields.rs`, which is not part of the provided sources; its variants are
exactly the ones `git.rs` constructs). -/
inductive GitStatus where
  | New
  | Modified
  | Deleted
  | Renamed
  | TypeChange
  | NotModified
deriving DecidableEq, Repr

/-- Modelled from the spec: the Path Status record `f::Git` of
`src/fs/fields.rs` (not in the provided sources), a (staged, unstaged) pair of
Change Kinds, exactly as `git.rs` constructs it. -/
structure f.Git where
  staged : GitStatus
  unstaged : GitStatus
deriving DecidableEq, Repr

/-- `working_tree_status` (git.rs:90-99): reduce a raw flag set to the unstaged
Change Kind, first match wins. -/
def working_tree_status (status : Status) : GitStatus :=
  if Status.contains status STATUS_WT_NEW then GitStatus.New
  else if Status.contains status STATUS_WT_MODIFIED then GitStatus.Modified
  else if Status.contains status STATUS_WT_DELETED then GitStatus.Deleted
  else if Status.contains status STATUS_WT_RENAMED then GitStatus.Renamed
  else if Status.contains status STATUS_WT_TYPECHANGE then GitStatus.TypeChange
  else GitStatus.NotModified

/-- `index_status` (git.rs:103-112): reduce a raw flag set to the staged
Change Kind, first match wins. -/
def index_status (status : Status) : GitStatus :=
  if Status.contains status STATUS_INDEX_NEW then GitStatus.New
  else if Status.contains status STATUS_INDEX_MODIFIED then GitStatus.Modified
  else if Status.contains status STATUS_INDEX_DELETED then GitStatus.Deleted
  else if Status.contains status STATUS_INDEX_RENAMED then GitStatus.Renamed
  else if Status.contains status STATUS_INDEX_TYPECHANGE then GitStatus.TypeChange
  else GitStatus.NotModified

/-- The live `git2::Repository` capability kept inside the `Mutex`: the only
operation used after construction is `status_should_ignore`, which may fail. -/
structure Repository where
  status_should_ignore : PathT → Except Unit Bool

/-- The `Git` container (git.rs:10-22): repository handle, cached working
directory, and the immutable snapshot of (absolute path, raw flags) pairs. -/
structure Git where
  repository : Repository
  workdir : PathT
  statuses : List (PathT × Status)

/-- `Git::status` (git.rs:59-66): find the snapshot entry whose path equals
`path` exactly; reduce its flags per side, or default to NotModified. -/
def Git.status (g : Git) (path : PathT) : f.Git :=
  match g.statuses.find? (fun p => p.1 == path) with
  | some e => { staged := index_status e.2, unstaged := working_tree_status e.2 }
  | none => { staged := GitStatus.NotModified, unstaged := GitStatus.NotModified }

/-- `Git::dir_status` (git.rs:71-77): filter the snapshot to the entries whose
path starts with `dir` (component-wise), OR their flags together, reduce. -/
def Git.dir_status (g : Git) (dir : PathT) : f.Git :=
  let s := (g.statuses.filter (fun p => List.isPrefixOf dir p.1)).foldl
    (fun a b => a ||| b.2) Status.empty
  { staged := index_status s, unstaged := working_tree_status s }

/-- `Git::should_ignore` (git.rs:80-86): live ignore query,
`result.unwrap_or(false)`. -/
def Git.should_ignore (g : Git) (path : PathT) : Bool :=
  match g.repository.status_should_ignore path with
  | Except.ok b => b
  | Except.error _ => false

/-- What `git2::Repository::discover` hands back on success: the optional
working directory (`workdir()`), the result of `statuses(None)` — each entry
carrying the optional UTF-8 path that `StatusEntry::path()` yields — and the
ignore capability retained in the handle. -/
structure RepoData where
  workdir : Option PathT
  statuses_result : Except Unit (List (Option PathT × Status))
  ignore : PathT → Except Unit Bool

/-- The materialization loop of `Git::scan` (git.rs:46-48): for each entry,
`workdir.join(Path::new(e.path().unwrap()))`. An entry whose path is `none`
(non-UTF-8) makes `unwrap` panic, modelled as `Except.error`. -/
def joinEntries (w : PathT) : List (Option PathT × Status) → Except Unit (List (PathT × Status))
  | [] => Except.ok []
  | (none, _) :: _ => Except.error ()
  | (some rel, s) :: rest => (joinEntries w rest).map (fun l => (w ++ rel, s) :: l)

/-- `Git::scan` (git.rs:31-56), as a function of the provider's responses.
The outer `Except` layer is abnormal termination (panic): a normal return is
`ok`, carrying the `Option<Git>` the Rust function returns. -/
def Git.scan (discovered : Except Unit RepoData) : Except Unit (Option Git) :=
  match discovered with
  | Except.error _ => Except.ok none
  | Except.ok repo =>
    match repo.workdir with
    | none => Except.ok none
    | some w =>
      match repo.statuses_result with
      | Except.error _ => Except.ok none
      | Except.ok entries =>
        match joinEntries w entries with
        | Except.error u => Except.error u
        | Except.ok stats =>
          Except.ok (some { repository := { status_should_ignore := repo.ignore },
                            workdir := w, statuses := stats })

/-- The spec's directory aggregation, stated in its own words: filter the
snapshot to entries with `dir` as a component-wise path-prefix, then
bitwise-OR all their raw flags into one combined set. -/
def combinedRawFlags (g : Git) (dir : PathT) : Status :=
  (g.statuses.filter (fun p => List.isPrefixOf dir p.1)).foldl
    (fun a b => a ||| b.2) Status.empty

/-- The spec's priority reduction, stated in its own words: an ordered list of
(flag, Change Kind) pairs, evaluated in priority order, first match wins,
defaulting to Unmodified. -/
def reduceByPriority (priorities : List (Status × GitStatus)) (s : Status) : GitStatus :=
  match priorities.find? (fun p => Status.contains s p.1) with
  | some p => p.2
  | none => GitStatus.NotModified

/-- The staged-side priority list of the spec: New > Modified > Deleted >
Renamed > TypeChanged. -/
def INDEX_PRIORITY : List (Status × GitStatus) :=
  [(STATUS_INDEX_NEW, GitStatus.New),
   (STATUS_INDEX_MODIFIED, GitStatus.Modified),
   (STATUS_INDEX_DELETED, GitStatus.Deleted),
   (STATUS_INDEX_RENAMED, GitStatus.Renamed),
   (STATUS_INDEX_TYPECHANGE, GitStatus.TypeChange)]

/-- The unstaged-side priority list of the spec. -/
def WT_PRIORITY : List (Status × GitStatus) :=
  [(STATUS_WT_NEW, GitStatus.New),
   (STATUS_WT_MODIFIED, GitStatus.Modified),
   (STATUS_WT_DELETED, GitStatus.Deleted),
   (STATUS_WT_RENAMED, GitStatus.Renamed),
   (STATUS_WT_TYPECHANGE, GitStatus.TypeChange)]

/-- Salience rank of a Change Kind, per the priority order (higher = earlier
in the priority list = more salient). -/
def rank : GitStatus → Nat
  | GitStatus.New => 5
  | GitStatus.Modified => 4
  | GitStatus.Deleted => 3
  | GitStatus.Renamed => 2
  | GitStatus.TypeChange => 1
  | GitStatus.NotModified => 0

/-- The five-boolean shape shared by both reductions, used to turn
monotonicity arguments into finite boolean checks. -/
def red5 (b1 b2 b3 b4 b5 : Bool) : GitStatus :=
  if b1 then GitStatus.New
  else if b2 then GitStatus.Modified
  else if b3 then GitStatus.Deleted
  else if b4 then GitStatus.Renamed
  else if b5 then GitStatus.TypeChange
  else GitStatus.NotModified

/-- A repository handle whose ignore query always succeeds with `false`. -/
def repoOk : Repository := { status_should_ignore := fun _ => Except.ok false }

/-- A resolver over a directory with two descendants: one new in the index,
one deleted in the working tree. -/
def gC1 : Git :=
  { repository := repoOk, workdir := ["repo"],
    statuses := [(["repo", "d", "f1"], STATUS_INDEX_NEW),
                 (["repo", "d", "f2"], STATUS_WT_DELETED)] }

/-- A discovered repository whose status enumeration contains one entry whose
path is not representable as UTF-8 (`StatusEntry::path()` returns `None`). -/
def repoC3 : RepoData :=
  { workdir := some ["repo"],
    statuses_result := Except.ok [(none, STATUS_WT_NEW)],
    ignore := fun _ => Except.ok false }

/-- A resolver whose snapshot has entries under `/repo/ab` and under
`/repo/abc`, to separate component-wise matching from string matching. -/
def gC4 : Git :=
  { repository := repoOk, workdir := ["repo"],
    statuses := [(["repo", "ab", "x"], STATUS_INDEX_MODIFIED),
                 (["repo", "abc", "file"], STATUS_WT_NEW)] }

/-- A resolver whose only entry sits strictly below the queried path. -/
def gC5 : Git :=
  { repository := repoOk, workdir := ["repo"],
    statuses := [(["repo", "a", "b"], STATUS_WT_NEW)] }

/-- A resolver with one entry, all of it outside the queried directory. -/
def gC6 : Git :=
  { repository := repoOk, workdir := ["repo"],
    statuses := [(["repo", "x"], STATUS_WT_NEW)] }

/-- A resolver whose repository handle fails every ignore query. -/
def gC7 : Git :=
  { repository := { status_should_ignore := fun _ => Except.error () },
    workdir := ["repo"], statuses := [] }

/-- Two resolvers sharing one snapshot but differing elsewhere. -/
def gC8a : Git :=
  { repository := repoOk, workdir := ["repo"],
    statuses := [(["repo", "f"], STATUS_WT_MODIFIED)] }

/-- See `gC8a`: same snapshot, different working directory and handle. -/
def gC8b : Git :=
  { repository := { status_should_ignore := fun _ => Except.error () },
    workdir := ["elsewhere"],
    statuses := [(["repo", "f"], STATUS_WT_MODIFIED)] }

/-- A resolver with a single changed file, queried at its own exact path. -/
def gC10 : Git :=
  { repository := repoOk, workdir := ["repo"],
    statuses := [(["repo", "f"], STATUS_WT_MODIFIED)] }

/-! ## Helper lemmas -/

theorem isPrefixOf_self (l : List String) : List.isPrefixOf l l = true := by
  induction l with
  | nil => rfl
  | cons a as ih => simp [List.isPrefixOf, ih]

theorem and_or_absorb (a b f : Nat) (h : a &&& f = f) : (a ||| b) &&& f = f := by
  apply Nat.eq_of_testBit_eq
  intro i
  have hi : (a.testBit i && f.testBit i) = f.testBit i := by
    have := congrArg (fun n => Nat.testBit n i) h
    simpa [Nat.testBit_and] using this
  simp only [Nat.testBit_and, Nat.testBit_or]
  cases hf : f.testBit i <;> cases ha : a.testBit i <;> simp_all

theorem contains_or_left (a b f : Status) (h : Status.contains a f = true) :
    Status.contains (a ||| b) f = true := by
  have h2 : a &&& f = f := by simpa [Status.contains] using h
  simp [Status.contains, and_or_absorb a b f h2]

theorem contains_or_right (a b f : Status) (h : Status.contains b f = true) :
    Status.contains (a ||| b) f = true := by
  rw [Nat.or_comm]
  exact contains_or_left b a f h

theorem contains_foldl_init (l : List (PathT × Status)) (init f : Status)
    (h : Status.contains init f = true) :
    Status.contains (l.foldl (fun a b => a ||| b.2) init) f = true := by
  induction l generalizing init with
  | nil => exact h
  | cons hd tl ih => exact ih (init ||| hd.2) (contains_or_left init hd.2 f h)

theorem contains_foldl_of_mem (l : List (PathT × Status)) (x : PathT × Status) (f : Status)
    (hx : x ∈ l) (hc : Status.contains x.2 f = true) (init : Status) :
    Status.contains (l.foldl (fun a b => a ||| b.2) init) f = true := by
  induction l generalizing init with
  | nil => cases hx
  | cons hd tl ih =>
    rcases List.mem_cons.mp hx with heq | hmem
    · subst heq
      exact contains_foldl_init tl (init ||| x.2) f (contains_or_right init x.2 f hc)
    · exact ih hmem (init ||| hd.2)

theorem index_status_eq_red5 (s : Status) :
    index_status s =
      red5 (Status.contains s STATUS_INDEX_NEW) (Status.contains s STATUS_INDEX_MODIFIED)
        (Status.contains s STATUS_INDEX_DELETED) (Status.contains s STATUS_INDEX_RENAMED)
        (Status.contains s STATUS_INDEX_TYPECHANGE) := rfl

theorem working_tree_status_eq_red5 (s : Status) :
    working_tree_status s =
      red5 (Status.contains s STATUS_WT_NEW) (Status.contains s STATUS_WT_MODIFIED)
        (Status.contains s STATUS_WT_DELETED) (Status.contains s STATUS_WT_RENAMED)
        (Status.contains s STATUS_WT_TYPECHANGE) := rfl

theorem red5_rank_mono : ∀ a1 a2 a3 a4 a5 b1 b2 b3 b4 b5 : Bool,
    (a1 = true → b1 = true) → (a2 = true → b2 = true) → (a3 = true → b3 = true) →
    (a4 = true → b4 = true) → (a5 = true → b5 = true) →
    rank (red5 a1 a2 a3 a4 a5) ≤ rank (red5 b1 b2 b3 b4 b5) := by decide

/-! ## Claims -/

/-- C1: `dir_status(d)` equals the snapshot filtered to entries with `d` as a
component-wise path-prefix, their raw flags ORed into one combined set, and
that set reduced by the single-file priority reduction independently per
side; on a directory with a staged-New descendant and an unstaged-Deleted
descendant it returns (New, Deleted). -/
theorem dir_status_or_then_reduce :
    (∀ (g : Git) (d : PathT),
        Git.dir_status g d =
          { staged := index_status (combinedRawFlags g d),
            unstaged := working_tree_status (combinedRawFlags g d) }) ∧
    Git.dir_status gC1 ["repo", "d"] =
      { staged := GitStatus.New, unstaged := GitStatus.Deleted } :=
  ⟨fun _ _ => rfl, rfl⟩

/-- C2: both per-side reductions follow the fixed priority list New >
Modified > Deleted > Renamed > TypeChanged > Unmodified with first match
winning, and in particular flags encoding both new-in-index and
modified-in-index reduce to New on the staged side. -/
theorem status_priority_order :
    (∀ s : Status, index_status s = reduceByPriority INDEX_PRIORITY s) ∧
    (∀ s : Status, working_tree_status s = reduceByPriority WT_PRIORITY s) ∧
    (∀ s : Status, Status.contains s STATUS_INDEX_NEW = true →
      Status.contains s STATUS_INDEX_MODIFIED = true →
      index_status s = GitStatus.New) := by
  refine ⟨?_, ?_, ?_⟩
  · intro s
    cases h1 : Status.contains s STATUS_INDEX_NEW <;>
    cases h2 : Status.contains s STATUS_INDEX_MODIFIED <;>
    cases h3 : Status.contains s STATUS_INDEX_DELETED <;>
    cases h4 : Status.contains s STATUS_INDEX_RENAMED <;>
    cases h5 : Status.contains s STATUS_INDEX_TYPECHANGE <;>
    simp [index_status, reduceByPriority, INDEX_PRIORITY, List.find?, h1, h2, h3, h4, h5]
  · intro s
    cases h1 : Status.contains s STATUS_WT_NEW <;>
    cases h2 : Status.contains s STATUS_WT_MODIFIED <;>
    cases h3 : Status.contains s STATUS_WT_DELETED <;>
    cases h4 : Status.contains s STATUS_WT_RENAMED <;>
    cases h5 : Status.contains s STATUS_WT_TYPECHANGE <;>
    simp [working_tree_status, reduceByPriority, WT_PRIORITY, List.find?, h1, h2, h3, h4, h5]
  · intro s h1 _
    simp [index_status, h1]

/-- Witness for C2 at the flag set INDEX_NEW | INDEX_MODIFIED = 3. -/
theorem status_priority_order_witness : index_status 3 = GitStatus.New :=
  status_priority_order.2.2 3 rfl rfl

/-- C3: the three provider failure modes (discovery error, no working
directory, status-enumeration error) all produce a normal `None` return, but
a status entry whose path is unrepresentable makes `scan` panic via
`e.path().unwrap()` instead of returning `None`, contradicting the
function's own doc comment ("will just return None if any error happens at
all"). -/
theorem scan_error_absorption_and_panic :
    Git.scan (Except.error ()) = Except.ok none ∧
    Git.scan (Except.ok { repoC3 with workdir := none }) = Except.ok none ∧
    Git.scan (Except.ok { repoC3 with statuses_result := Except.error () }) = Except.ok none ∧
    Git.scan (Except.ok repoC3) = Except.error () :=
  ⟨rfl, rfl, rfl, rfl⟩

/-- C4: an entry whose path does not have `d` as a component-wise path-prefix
is excluded from `dir_status`'s aggregation, and concretely the snapshot
entry under `/repo/abc/file` does not contribute to
`dir_status("/repo/ab")`, which sees only the `/repo/ab/x` entry. -/
theorem dir_status_component_exact :
    (∀ (g : Git) (d : PathT) (e : PathT × Status), e ∈ g.statuses →
        List.isPrefixOf d e.1 = false →
        e ∉ g.statuses.filter (fun p => List.isPrefixOf d p.1)) ∧
    Git.dir_status gC4 ["repo", "ab"] =
      { staged := GitStatus.Modified, unstaged := GitStatus.NotModified } := by
  constructor
  · intro g d e _ hfalse hmem
    have hpred := (List.mem_filter.mp hmem).2
    rw [hfalse] at hpred
    exact Bool.false_ne_true hpred
  · rfl

/-- Witness for C4: the `/repo/abc/file` entry is excluded at `/repo/ab`. -/
theorem dir_status_component_exact_witness :
    (["repo", "abc", "file"], STATUS_WT_NEW) ∉
      gC4.statuses.filter (fun p => List.isPrefixOf ["repo", "ab"] p.1) :=
  dir_status_component_exact.1 gC4 ["repo", "ab"] (["repo", "abc", "file"], STATUS_WT_NEW)
    (by simp [gC4]) rfl

/-- C5: `status(path)` looks the path up by exact equality, so a path with no
exactly-equal snapshot entry gets the default (Unmodified, Unmodified). -/
theorem status_absent_default (g : Git) (path : PathT)
    (h : ∀ e ∈ g.statuses, e.1 ≠ path) :
    Git.status g path =
      { staged := GitStatus.NotModified, unstaged := GitStatus.NotModified } := by
  have hf : g.statuses.find? (fun p => p.1 == path) = none := by
    rw [List.find?_eq_none]
    intro e he
    simpa using h e he
  simp [Git.status, hf]

/-- Witness for C5: `/repo/a` has no exact entry (only `/repo/a/b` does), so
no prefix matching happens and the default pair comes back. -/
theorem status_absent_default_witness :
    Git.status gC5 ["repo", "a"] =
      { staged := GitStatus.NotModified, unstaged := GitStatus.NotModified } :=
  status_absent_default gC5 ["repo", "a"] (by decide)

/-- C6: a directory with zero matching snapshot entries folds the empty list
to the empty flag set, which reduces to (Unmodified, Unmodified). -/
theorem dir_status_empty_default (g : Git) (d : PathT)
    (h : ∀ e ∈ g.statuses, List.isPrefixOf d e.1 = false) :
    Git.dir_status g d =
      { staged := GitStatus.NotModified, unstaged := GitStatus.NotModified } := by
  have hf : g.statuses.filter (fun p => List.isPrefixOf d p.1) = [] := by
    rw [List.filter_eq_nil_iff]
    intro e he
    simp [h e he]
  have hempty : Git.dir_status g d =
      { staged := index_status Status.empty,
        unstaged := working_tree_status Status.empty } := by
    simp [Git.dir_status, hf]
  rw [hempty]
  rfl

/-- Witness for C6 at a directory disjoint from the one snapshot entry. -/
theorem dir_status_empty_default_witness :
    Git.dir_status gC6 ["repo", "y"] =
      { staged := GitStatus.NotModified, unstaged := GitStatus.NotModified } :=
  dir_status_empty_default gC6 ["repo", "y"] (by decide)

/-- C7: when the repository provider's ignore evaluation fails,
`should_ignore` returns `false` instead of propagating the error. -/
theorem should_ignore_error_false (g : Git) (path : PathT)
    (h : g.repository.status_should_ignore path = Except.error ()) :
    Git.should_ignore g path = false := by
  simp [Git.should_ignore, h]

/-- Witness for C7 on a handle whose ignore query always fails. -/
theorem should_ignore_error_false_witness :
    Git.should_ignore gC7 ["repo", "f"] = false :=
  should_ignore_error_false gC7 ["repo", "f"] rfl

/-- C8: `status` reads nothing but the snapshot, which is never mutated, so
any two resolvers with the same snapshot — in particular the same resolver
queried twice — give identical results for every path. -/
theorem status_deterministic (g1 g2 : Git) (path : PathT)
    (h : g1.statuses = g2.statuses) :
    Git.status g1 path = Git.status g2 path := by
  simp [Git.status, h]

/-- Witness for C8: two resolvers sharing a snapshot but differing in
working directory and repository handle agree on `status`. -/
theorem status_deterministic_witness :
    Git.status gC8a ["repo", "f"] = Git.status gC8b ["repo", "f"] :=
  status_deterministic gC8a gC8b ["repo", "f"] rfl

/-- C9: the staged reduction only tests the five index flags and the
unstaged reduction only the five working-tree flags, so each side is
unaffected by the other side's flags. -/
theorem side_independence (s t : Status) :
    ((Status.contains s STATUS_INDEX_NEW = Status.contains t STATUS_INDEX_NEW ∧
      Status.contains s STATUS_INDEX_MODIFIED = Status.contains t STATUS_INDEX_MODIFIED ∧
      Status.contains s STATUS_INDEX_DELETED = Status.contains t STATUS_INDEX_DELETED ∧
      Status.contains s STATUS_INDEX_RENAMED = Status.contains t STATUS_INDEX_RENAMED ∧
      Status.contains s STATUS_INDEX_TYPECHANGE = Status.contains t STATUS_INDEX_TYPECHANGE) →
      index_status s = index_status t) ∧
    ((Status.contains s STATUS_WT_NEW = Status.contains t STATUS_WT_NEW ∧
      Status.contains s STATUS_WT_MODIFIED = Status.contains t STATUS_WT_MODIFIED ∧
      Status.contains s STATUS_WT_DELETED = Status.contains t STATUS_WT_DELETED ∧
      Status.contains s STATUS_WT_RENAMED = Status.contains t STATUS_WT_RENAMED ∧
      Status.contains s STATUS_WT_TYPECHANGE = Status.contains t STATUS_WT_TYPECHANGE) →
      working_tree_status s = working_tree_status t) := by
  constructor
  · rintro ⟨h1, h2, h3, h4, h5⟩
    simp only [index_status, h1, h2, h3, h4, h5]
  · rintro ⟨h1, h2, h3, h4, h5⟩
    simp only [working_tree_status, h1, h2, h3, h4, h5]

/-- Witness for C9: INDEX_NEW|WT_MODIFIED (= 257) vs INDEX_NEW (= 1) agree
on index flags, and 257 vs WT_MODIFIED (= 256) agree on working-tree
flags. -/
theorem side_independence_witness :
    index_status 257 = index_status 1 ∧
    working_tree_status 257 = working_tree_status 256 :=
  ⟨(side_independence 257 1).1 (by decide), (side_independence 257 256).2 (by decide)⟩

/-- C10: a path with its own snapshot entry matches its own prefix filter,
so that entry's flags are included in the OR-fold and `dir_status` at that
exact path is, per side, at least as salient as the entry's own reduction. -/
theorem dir_status_entry_not_weaker (g : Git) (p : PathT) (s : Status)
    (h : (p, s) ∈ g.statuses) :
    rank (index_status s) ≤ rank (Git.dir_status g p).staged ∧
    rank (working_tree_status s) ≤ rank (Git.dir_status g p).unstaged := by
  have hmem : (p, s) ∈ g.statuses.filter (fun e => List.isPrefixOf p e.1) :=
    List.mem_filter.mpr ⟨h, isPrefixOf_self p⟩
  have hsub : ∀ f, Status.contains s f = true →
      Status.contains (combinedRawFlags g p) f = true := by
    intro f hf
    exact contains_foldl_of_mem _ (p, s) f hmem hf Status.empty
  have hstaged : (Git.dir_status g p).staged = index_status (combinedRawFlags g p) := rfl
  have hunstaged : (Git.dir_status g p).unstaged =
      working_tree_status (combinedRawFlags g p) := rfl
  rw [hstaged, hunstaged, index_status_eq_red5 s,
    index_status_eq_red5 (combinedRawFlags g p), working_tree_status_eq_red5 s,
    working_tree_status_eq_red5 (combinedRawFlags g p)]
  exact ⟨red5_rank_mono _ _ _ _ _ _ _ _ _ _ (hsub _) (hsub _) (hsub _) (hsub _) (hsub _),
         red5_rank_mono _ _ _ _ _ _ _ _ _ _ (hsub _) (hsub _) (hsub _) (hsub _) (hsub _)⟩

/-- Witness for C10 at the snapshot's own single entry. -/
theorem dir_status_entry_not_weaker_witness :
    rank (index_status STATUS_WT_MODIFIED) ≤
      rank (Git.dir_status gC10 ["repo", "f"]).staged ∧
    rank (working_tree_status STATUS_WT_MODIFIED) ≤
      rank (Git.dir_status gC10 ["repo", "f"]).unstaged :=
  dir_status_entry_not_weaker gC10 ["repo", "f"] STATUS_WT_MODIFIED (by decide)

end Exa
